import Mathlib

/-!
Verification of the RoboShen voice-session hook (`useRoboShen`).

This file gives a shallow embedding of the session controller, audio
scheduling, tool-call dispatch, error classification, history and
cleanup logic of the hook, translated from the TypeScript source
(`src/unnamed/part_001`, with `src/hooks/useGeminiLive.ts` an earlier
variant of the same hook), and proves or refutes the stated properties
of its specification.

Times (audio-clock values, durations) are modelled as rationals;
millisecond timestamps as naturals.  External collaborators (the GenAI
SDK session, the browser audio nodes) appear only through the effects
the hook requests of them, recorded as explicit event values.
-/

namespace RoboShen

/-- Session lifecycle states (`SessionState` enum of `types.ts`, as used
throughout the hook: IDLE, CONNECTING, CONNECTED, ERROR). -/
inductive SessionState
  | idle
  | connecting
  | connected
  | error
deriving DecidableEq, Repr

/-- Message roles (`Role` enum of `types.ts`; the hook only ever uses
USER and MODEL). -/
inductive Role
  | user
  | model
deriving DecidableEq, Repr

/-- Content kinds of history entries (`ContentType` enum of `types.ts`:
TEXT, CODE, IMAGE). -/
inductive ContentType
  | text
  | code
  | image
deriving DecidableEq, Repr

/-- Structured user-facing error (`AppError` of `types.ts`): a title, a
message and an ordered list of remediation steps. -/
structure AppError where
  title : String
  message : String
  steps : List String
deriving DecidableEq, Repr

/-! ## String helpers

The classifier tests whether the lowercased fault message contains a
signature substring (`String.prototype.includes` on the result of
`toLowerCase`).  We model substring containment on character lists. -/

/-- Boolean test that the first list is an initial segment of the second. -/
def startsWith : List Char → List Char → Bool
  | [], _ => true
  | _ :: _, [] => false
  | a :: as, b :: bs => a == b && startsWith as bs

/-- Boolean substring containment: `containsSub needle hay` holds when
`needle` occurs contiguously inside `hay` (the semantics of
`String.prototype.includes`). -/
def containsSub (needle : List Char) : List Char → Bool
  | [] => startsWith needle []
  | c :: t => startsWith needle (c :: t) || containsSub needle t

/-- String-level substring containment. -/
def strContains (hay needle : String) : Bool :=
  containsSub needle.toList hay.toList

/-- Lowercasing of a string, character by character (models
`String.prototype.toLowerCase` on the ASCII signatures the classifier
looks for). -/
def lowerStr (m : String) : String :=
  String.mk (m.toList.map Char.toLower)

/-! ## Error classifier (`mapErrorToAppError`, part_001 lines 51-88)

A raw fault is anything thrown; the classifier first tests
`e instanceof Error` and then inspects `e.message` (lowercased) and
`e.name`.  We model a fault by that observable information. -/

/-- A raw fault as the classifier observes it: whether it is an `Error`
instance, its `name`, and its `message`. -/
structure Fault where
  isError : Bool
  name : String
  message : String
deriving DecidableEq, Repr

/-- Default title of the classifier (line 52). -/
def unknownTitle : String := "یک خطای ناشناخته رخ داد"

/-- Default message of the classifier (line 53). -/
def unknownMessage : String := "متاسفانه مشکلی پیش آمده. لطفاً دوباره تلاش کنید."

/-- Permission-denial signature test (line 58). -/
def isPermFault (f : Fault) : Bool :=
  strContains (lowerStr f.message) "permission" || f.name == "NotAllowedError"

/-- Network/auth/protocol-rejection signature test (line 66). -/
def isNetFault (f : Fault) : Bool :=
  strContains (lowerStr f.message) "api key" || strContains (lowerStr f.message) "400" ||
  strContains (lowerStr f.message) "403" || strContains (lowerStr f.message) "network" ||
  strContains (lowerStr f.message) "cors"

/-- Missing-input-device signature test (line 74). -/
def isDevFault (f : Fault) : Bool :=
  strContains (lowerStr f.message) "device" || f.name == "NotFoundError"

/-- The microphone-access error produced for permission denials
(lines 59-65). -/
def permAppError : AppError :=
  { title := "دسترسی به میکروفون لازم است"
    message := "برای شروع گفتگو، RoboShen نیاز به اجازه‌ی شما برای استفاده از میکروفون دارد."
    steps :=
      ["در پنجره‌ی باز شده روی \"Allow\" کلیک کنید.",
       "اگر پنجره را بسته‌اید، صفحه را رفرش کنید.",
       "در تنظیمات مرورگر خود، دسترسی به میکروفون را برای این سایت فعال کنید."] }

/-- The server-connection error produced for network/auth faults
(lines 67-73). -/
def netAppError : AppError :=
  { title := "خطا در ارتباط با سرور"
    message := "ارتباط با سرویس هوش مصنوعی برقرار نشد. این مشکل می‌تواند به دلایل زیر باشد:"
    steps :=
      ["اتصال اینترنت خود را بررسی کنید.",
       "ممکن است سرویس به طور موقت در دسترس نباشد.",
       "کلید API استفاده شده در کد ممکن است نامعتبر یا منقضی شده باشد."] }

/-- The no-microphone-found error produced for missing-device faults
(lines 75-81). -/
def devAppError : AppError :=
  { title := "میکروفون پیدا نشد"
    message := "هیچ دستگاه ورودی صوتی (میکروفون) بر روی سیستم شما شناسایی نشد."
    steps :=
      ["اطمینان حاصل کنید که میکروفون به درستی به دستگاه شما متصل است.",
       "اگر از میکروفون خارجی استفاده می‌کنید، آن را جدا کرده و دوباره وصل کنید.",
       "درایورهای صوتی خود را بررسی و به‌روزرسانی کنید."] }

/-- The error classifier (`mapErrorToAppError`, part_001 lines 51-88):
permission signatures first, then network/auth signatures, then
missing-device signatures, else the generic title with the fault's own
message; non-`Error` faults keep both generic title and message. -/
def mapErrorToAppError (f : Fault) : AppError :=
  if f.isError then
    if isPermFault f then permAppError
    else if isNetFault f then netAppError
    else if isDevFault f then devAppError
    else { title := unknownTitle, message := f.message, steps := [] }
  else { title := unknownTitle, message := unknownMessage, steps := [] }

/-- Modelled from the spec: the classifier as the specification states
its precedence — "(1) permission/consent-denial signatures; (2)
missing-input-device signatures; (3) authentication/network/
protocol-rejection signatures; (4) anything else".  It reuses the very
same signature tests and bucket values as the source classifier and
differs only in testing the device bucket before the network bucket.
Used solely to compare the claimed precedence with the code's. -/
def specMapErrorToAppError (f : Fault) : AppError :=
  if f.isError then
    if isPermFault f then permAppError
    else if isDevFault f then devAppError
    else if isNetFault f then netAppError
    else { title := unknownTitle, message := f.message, steps := [] }
  else { title := unknownTitle, message := unknownMessage, steps := [] }

/-- A fault whose message carries both a missing-device signature and a
network signature; the two precedence orders classify it differently. -/
def faultNetDev : Fault :=
  { isError := true, name := "Error", message := "no network device found" }

/-! ## Hook state and lifecycle (`useRoboShen`, part_001 lines 91-337)

The hook keeps its mutable state in React refs and state cells; we
gather them into one record.  Browser audio objects are reduced to the
information the hook branches on: an `AudioContext` to its `state`
(the `cleanup` and `onopen` code only ever compares it to `'closed'`
or `'suspended'`), a `MediaStream` to the list of its track
identifiers, the source `Set` to the list of identifiers of live
`AudioBufferSourceNode`s, a timer handle to its id. -/

/-- Observable lifecycle state of a browser `AudioContext`. -/
inductive CtxState
  | running
  | suspended
  | closed
deriving DecidableEq, Repr

/-- Model of an `AudioContext` as the hook observes it. -/
structure AudioCtx where
  ctxState : CtxState
deriving DecidableEq, Repr

/-- The hook's mutable state: one field per ref / state cell of
`useRoboShen` (part_001 lines 92-109). -/
structure HookState where
  sessionState : SessionState
  error : Option AppError
  isThinking : Bool
  isSpeaking : Bool
  sessionPromise : Option Unit
  stream : Option (List Nat)
  inputAudioContext : Option AudioCtx
  outputAudioContext : Option AudioCtx
  outputGainNode : Option Unit
  scriptProcessor : Option Unit
  nextStartTime : ℚ
  audioSources : List Nat
  speakingCheckInterval : Option Nat
  isClosed : Bool
deriving DecidableEq, Repr

/-- External side effects that `cleanup` asks of the browser objects it
holds; the real calls are `disconnect`, `close().catch(...)`,
`track.stop()`, `source.stop()`, `clearInterval`. -/
inductive CleanupEffect
  | disconnectedProcessor
  | disconnectedGain
  | closedInputCtx
  | closedOutputCtx
  | stoppedTrack (t : Nat)
  | stoppedSource (a : Nat)
  | clearedInterval (n : Nat)
deriving DecidableEq, Repr

/-- The `cleanup` callback (part_001 lines 117-150), step for step:
disconnect and null the processor and gain nodes, close (with the
rejection swallowed by `.catch`) and null each audio context not
already closed, stop every microphone track and drop the stream, stop
and clear every live playback source, reset the playback cursor to 0,
cancel the speaking-check timer, clear the speaking flag and drop the
session handle.  It returns the new state together with the list of
effects requested; every fallible browser call is guarded or caught in
the source, so the function is total. -/
def cleanup (s : HookState) : HookState × List CleanupEffect :=
  let e1 := match s.scriptProcessor with
    | some _ => [CleanupEffect.disconnectedProcessor]
    | none => []
  let s := { s with scriptProcessor := none }
  let e2 := match s.outputGainNode with
    | some _ => [CleanupEffect.disconnectedGain]
    | none => []
  let s := { s with outputGainNode := none }
  let e3 := match s.inputAudioContext with
    | some c => if c.ctxState ≠ CtxState.closed then [CleanupEffect.closedInputCtx] else []
    | none => []
  let s := { s with inputAudioContext := none }
  let e4 := match s.outputAudioContext with
    | some c => if c.ctxState ≠ CtxState.closed then [CleanupEffect.closedOutputCtx] else []
    | none => []
  let s := { s with outputAudioContext := none }
  let e5 := match s.stream with
    | some ts => ts.map CleanupEffect.stoppedTrack
    | none => []
  let s := { s with stream := none }
  let e6 := s.audioSources.map CleanupEffect.stoppedSource
  let s := { s with audioSources := [], nextStartTime := 0 }
  let e7 := match s.speakingCheckInterval with
    | some n => [CleanupEffect.clearedInterval n]
    | none => []
  let s := { s with speakingCheckInterval := none, isSpeaking := false, sessionPromise := none }
  (s, e1 ++ e2 ++ e3 ++ e4 ++ e5 ++ e6 ++ e7)

/-- The channel `onopen` callback (part_001 lines 285-306).  Returns
the new state and whether capture was (re-)wired.  The two guards come
first: a channel already recorded as closed is ignored, and missing or
closed input resources abort the wiring; otherwise the state becomes
CONNECTED and the script processor is created and connected. -/
def onopen (s : HookState) : HookState × Bool :=
  if s.isClosed then (s, false)
  else
    match s.inputAudioContext, s.stream with
    | some ctx, some _ =>
        if ctx.ctxState = CtxState.closed then (s, false)
        else ({ s with sessionState := SessionState.connected,
                       scriptProcessor := some () }, true)
    | _, _ => (s, false)

/-- The channel `onclose` callback (part_001 lines 320-327): record the
channel as closed, move to IDLE unless the (ref-tracked) state is
ERROR, then run `cleanup`. -/
def onclose (s : HookState) : HookState :=
  let s1 := { s with isClosed := true }
  let s2 :=
    if s1.sessionState ≠ SessionState.error then
      { s1 with sessionState := SessionState.idle }
    else s1
  (cleanup s2).1

/-- The synchronous prelude of `startSession` (part_001 lines 250-255):
the idempotency guard, then clearing the error, entering CONNECTING and
resetting the closed flag.  The second component records whether a new
connection attempt proceeds past the guard (resource acquisition and
`live.connect` only happen on `true`). -/
def startSession (s : HookState) : HookState × Bool :=
  if s.sessionState = SessionState.connecting ∨ s.sessionState = SessionState.connected then
    (s, false)
  else
    ({ s with error := none, sessionState := SessionState.connecting, isClosed := false }, true)

/-! ## Playback scheduling (`handleMessage`, part_001 lines 219-232)

On each inbound audio chunk the hook computes
`startTime = max(nextStartTimeRef.current, ctx.currentTime)`, starts
the chunk there and advances the cursor by the chunk's duration.  A
chunk arrival is modelled by the pair (clock value at arrival,
duration). -/

/-- One scheduling step (part_001 lines 228-230): given the cursor, the
playback clock at arrival and the chunk duration, return the scheduled
start time and the new cursor. -/
def scheduleChunk (next clock dur : ℚ) : ℚ × ℚ :=
  (max next clock, max next clock + dur)

/-- The (start time, duration) pairs produced by scheduling a sequence
of chunk arrivals in order, starting from cursor `next`. -/
def schedTimes (next : ℚ) : List (ℚ × ℚ) → List (ℚ × ℚ)
  | [] => []
  | (clock, dur) :: rest =>
      ((scheduleChunk next clock dur).1, dur) ::
        schedTimes (scheduleChunk next clock dur).2 rest

/-- The successive values taken by the playback cursor
`nextStartTimeRef.current` while the same chunk sequence is processed
(its value before each arrival, and after the last). -/
def cursorTrace (next : ℚ) : List (ℚ × ℚ) → List ℚ
  | [] => [next]
  | (clock, dur) :: rest => next :: cursorTrace (scheduleChunk next clock dur).2 rest

/-! ## Capture pipe (`onaudioprocess`, part_001 lines 297-303)

Each hardware frame callback encodes the frame and sends it through
the session handle; `sessionPromiseRef.current?.then(...)` drops the
send when the handle is absent.  The callback owns no other state: a
dropped frame is not recorded anywhere, so it can never be delivered
or retried later. -/

/-- One capture callback: the outbound sends it produces, given whether
the session handle is present.  A frame is the identifier of its PCM
payload (the encoding by `createBlob` is an external codec). -/
def onAudioProcess (hasSession : Bool) (frame : Nat) : List Nat :=
  if hasSession then [frame] else []

/-- A run of capture callbacks: each element pairs a frame with the
presence of the session handle at the instant its callback fired; the
result is the concatenation of the sends. -/
def capturePipe : List (Nat × Bool) → List Nat
  | [] => []
  | (frame, ready) :: rest => onAudioProcess ready frame ++ capturePipe rest

/-! ## History (`addMessageToHistory`, part_001 lines 152-154)

Each entry is prepended (history is newest-first) with id
`role + "-" + Date.now()`. -/

/-- A history entry (`Message` of `types.ts`). -/
structure Message where
  id : String
  role : Role
  text : String
  type : ContentType
deriving DecidableEq, Repr

/-- Modelled from the spec: the string value of a `Role` enum member as
interpolated by the template literal; `types.ts` is not part of the
sources, but the only fact the claims use is that equal roles render
equally, which holds for any rendering. -/
def roleStr : Role → String
  | Role.user => "user"
  | Role.model => "model"

/-- An entry's id (part_001 line 153): the role rendered by the
template literal, a hyphen, and the current millisecond timestamp. -/
def mkMessageId (role : Role) (nowMs : Nat) : String :=
  roleStr role ++ "-" ++ toString nowMs

/-- The `addMessageToHistory` helper (part_001 lines 152-154),
parameterised by the value of `Date.now()` at the call. -/
def addMessageToHistory (nowMs : Nat) (prev : List Message) (text : String) (role : Role)
    (ty : ContentType) : List Message :=
  { id := mkMessageId role nowMs, role := role, text := text, type := ty } :: prev

/-! ## Tool-call dispatch (`handleMessage`, part_001 lines 178-216)

The tool-call branch sets the thinking flag, then loops over the
invocations; each iteration appends a request entry, awaits the
external generation call, possibly appends the generated content,
and — still inside the `try` — sends the tool response; the `catch`
appends an apology, the `finally` clears the thinking flag.  The
iteration is modelled as the list of observable events it performs, in
order.  The outcome of the awaited external call (including the access
to the response's fields) is an oracle argument. -/

/-- A tool invocation (`fc` element of `message.toolCall.functionCalls`). -/
structure FunctionCall where
  id : String
  name : String
  prompt : String
deriving DecidableEq, Repr

/-- Outcome of one awaited external generation call: the returned text
(respectively the base64 image bytes), or a rejection. -/
inductive ExecOutcome
  | ok (payload : String)
  | fail
deriving DecidableEq, Repr

/-- Observable events of the tool-call branch, in execution order. -/
inductive ToolEvent
  | setThinking (b : Bool)
  | historyAdd (text : String) (role : Role) (ty : ContentType)
  | sendToolResponse (id name result : String)
deriving DecidableEq, Repr

/-- Success result string of the content tool (line 193). -/
def contentSuccessMsg : String := "Content generated successfully."

/-- Success result string of the image tool (line 202). -/
def imageSuccessMsg : String := "Image generated successfully."

/-- The initial value of `toolResponseResult` (line 183), sent verbatim
for an unrecognized tool name. -/
def defaultToolResult : String := "Sorry, I couldn\x27t do that."

/-- Apology appended by the `catch` branch (line 212). -/
def apologyMsg : String := "متاسفانه در اجرای درخواست مشکلی پیش آمد."

/-- Label prepended to a content request's history entry (line 187). -/
def contentReqLabel : String := "درخواست محتوا: "

/-- Label prepended to an image request's history entry (line 195). -/
def imageReqLabel : String := "درخواست تصویر: "

/-- The fenced-code marker tested by `handleProModelResponse`
(line 159). -/
def codeFence : String := "\x60\x60\x60"

/-- Data-URL head built by `handleImageModelResponse` (line 167). -/
def dataUrlHead : String := "data:image/jpeg;base64,"

/-- The tool response send (part_001 lines 205-209):
`sessionPromiseRef.current?.then(...)` — dropped when the handle is
absent. -/
def sendResponse (hasSession : Bool) (fc : FunctionCall) (result : String) : List ToolEvent :=
  if hasSession then [ToolEvent.sendToolResponse fc.id fc.name result] else []

/-- The `try` body of one iteration of the invocation loop (part_001
lines 185-209): the events it performs, and whether it threw.
`hasSession` is whether `sessionPromiseRef.current` is non-null at the
send; `exec` is the outcome oracle of the awaited generation call
(including the accesses to the response's fields).  Note the response
send sits at the end of the `try` body: it is reached only when the
awaited call did not throw. -/
def invTryBlock (hasSession : Bool) (exec : FunctionCall → ExecOutcome)
    (fc : FunctionCall) : List ToolEvent × Bool :=
  if fc.name = "generateContent" then
    match exec fc with
    | ExecOutcome.ok text =>
        (ToolEvent.historyAdd (contentReqLabel ++ fc.prompt) Role.user ContentType.text ::
          ((if text ≠ "" then
              [ToolEvent.historyAdd text Role.model
                (if strContains text codeFence then ContentType.code else ContentType.text)]
            else []) ++ sendResponse hasSession fc contentSuccessMsg), false)
    | ExecOutcome.fail =>
        ([ToolEvent.historyAdd (contentReqLabel ++ fc.prompt) Role.user ContentType.text], true)
  else if fc.name = "generateImage" then
    match exec fc with
    | ExecOutcome.ok bytes =>
        (ToolEvent.historyAdd (imageReqLabel ++ fc.prompt) Role.user ContentType.text ::
          ((if bytes ≠ "" then
              [ToolEvent.historyAdd (dataUrlHead ++ bytes) Role.model ContentType.image]
            else []) ++ sendResponse hasSession fc imageSuccessMsg), false)
    | ExecOutcome.fail =>
        ([ToolEvent.historyAdd (imageReqLabel ++ fc.prompt) Role.user ContentType.text], true)
  else
    (sendResponse hasSession fc defaultToolResult, false)

/-- One iteration of the invocation loop (part_001 lines 182-216): the
`try` body, then the `catch` apology when it threw, then the `finally`
clearing of the thinking flag. -/
def runInvocation (hasSession : Bool) (exec : FunctionCall → ExecOutcome)
    (fc : FunctionCall) : List ToolEvent :=
  (invTryBlock hasSession exec fc).1 ++
    (if (invTryBlock hasSession exec fc).2 then
      [ToolEvent.historyAdd apologyMsg Role.model ContentType.text]
    else []) ++
    [ToolEvent.setThinking false]

/-- Sequential processing of all invocations of one tool-call event
(the `for` loop at line 182). -/
def runAll (hasSession : Bool) (exec : FunctionCall → ExecOutcome) :
    List FunctionCall → List ToolEvent
  | [] => []
  | fc :: rest => runInvocation hasSession exec fc ++ runAll hasSession exec rest

/-- The whole tool-call branch of `handleMessage` (part_001 lines
178-216): set the thinking flag, then process the invocations in
order. -/
def handleToolCall (hasSession : Bool) (exec : FunctionCall → ExecOutcome)
    (fcs : List FunctionCall) : List ToolEvent :=
  ToolEvent.setThinking true :: runAll hasSession exec fcs

/-- Number of tool responses in an event trace. -/
def countToolResponses : List ToolEvent → Nat
  | [] => 0
  | ToolEvent.sendToolResponse _ _ _ :: rest => countToolResponses rest + 1
  | _ :: rest => countToolResponses rest

/-- Number of `setThinking true` events in a trace. -/
def countSetThinkingTrue : List ToolEvent → Nat
  | [] => 0
  | ToolEvent.setThinking true :: rest => countSetThinkingTrue rest + 1
  | _ :: rest => countSetThinkingTrue rest

/-- Number of `setThinking false` events in a trace. -/
def countSetThinkingFalse : List ToolEvent → Nat
  | [] => 0
  | ToolEvent.setThinking false :: rest => countSetThinkingFalse rest + 1
  | _ :: rest => countSetThinkingFalse rest

/-- Value of the thinking flag after replaying a trace from `init`. -/
def thinkingAfter (init : Bool) : List ToolEvent → Bool
  | [] => init
  | ToolEvent.setThinking b :: rest => thinkingAfter b rest
  | ToolEvent.historyAdd _ _ _ :: rest => thinkingAfter init rest
  | ToolEvent.sendToolResponse _ _ _ :: rest => thinkingAfter init rest

/-- Value of the thinking flag after the first `k` events of a trace,
starting from `false` (its value outside any tool-call processing). -/
def thinkingAt (tr : List ToolEvent) (k : Nat) : Bool :=
  thinkingAfter false (tr.take k)

/-! ## Concrete sample values used to instantiate the theorems -/

/-- A fully-populated hook state: idle session holding an error, live
resources everywhere. -/
def sampleState : HookState :=
  { sessionState := SessionState.idle
    error := some permAppError
    isThinking := false
    isSpeaking := true
    sessionPromise := some ()
    stream := some [0, 1]
    inputAudioContext := some { ctxState := CtxState.running }
    outputAudioContext := some { ctxState := CtxState.suspended }
    outputGainNode := some ()
    scriptProcessor := some ()
    nextStartTime := 5
    audioSources := [3, 4]
    speakingCheckInterval := some 7
    isClosed := false }

/-- The sample state with a connected session. -/
def connectedState : HookState :=
  { sampleState with sessionState := SessionState.connected }

/-- The sample state after the channel has been recorded as closed. -/
def closedState : HookState :=
  { sampleState with isClosed := true }

/-- A fault carrying a permission-denial name. -/
def faultPerm : Fault :=
  { isError := true, name := "NotAllowedError", message := "mic denied" }

/-- An invocation of the content tool. -/
def fcContent : FunctionCall :=
  { id := "1", name := "generateContent", prompt := "a cat" }

/-- An invocation with a name matching no declared tool. -/
def fcUnknown : FunctionCall :=
  { id := "2", name := "doesNotExist", prompt := "x" }

/-- First invocation of a two-element batch (unrecognized name, so its
trace is short). -/
def fcToolA : FunctionCall :=
  { id := "1", name := "toolA", prompt := "p" }

/-- Second invocation of a two-element batch. -/
def fcToolB : FunctionCall :=
  { id := "2", name := "toolB", prompt := "p" }

/-! ## Helper lemmas -/

/-- The state produced by `cleanup`: every resource field cleared, the
cursor reset, the speaking flag down; session state, error, thinking
flag and closed flag untouched. -/
theorem cleanup_fst (s : HookState) :
    (cleanup s).1 =
      { s with scriptProcessor := none, outputGainNode := none, inputAudioContext := none,
               outputAudioContext := none, stream := none, audioSources := [],
               nextStartTime := 0, speakingCheckInterval := none, isSpeaking := false,
               sessionPromise := none } := rfl

/-- Replaying an appended trace composes the flag values. -/
theorem thinkingAfter_append (init : Bool) (l1 l2 : List ToolEvent) :
    thinkingAfter init (l1 ++ l2) = thinkingAfter (thinkingAfter init l1) l2 := by
  induction l1 generalizing init with
  | nil => rfl
  | cons ev rest ih => cases ev <;> simp [thinkingAfter, ih]

/-- Counting `setThinking true` distributes over append. -/
theorem countSetThinkingTrue_append (l1 l2 : List ToolEvent) :
    countSetThinkingTrue (l1 ++ l2) = countSetThinkingTrue l1 + countSetThinkingTrue l2 := by
  induction l1 with
  | nil => simp [countSetThinkingTrue]
  | cons ev rest ih =>
      cases ev with
      | setThinking b => cases b <;> simp [countSetThinkingTrue, ih, Nat.add_right_comm]
      | historyAdd t r ty => simp [countSetThinkingTrue, ih]
      | sendToolResponse i n r => simp [countSetThinkingTrue, ih]

/-- Counting `setThinking false` distributes over append. -/
theorem countSetThinkingFalse_append (l1 l2 : List ToolEvent) :
    countSetThinkingFalse (l1 ++ l2) = countSetThinkingFalse l1 + countSetThinkingFalse l2 := by
  induction l1 with
  | nil => simp [countSetThinkingFalse]
  | cons ev rest ih =>
      cases ev with
      | setThinking b => cases b <;> simp [countSetThinkingFalse, ih, Nat.add_right_comm]
      | historyAdd t r ty => simp [countSetThinkingFalse, ih]
      | sendToolResponse i n r => simp [countSetThinkingFalse, ih]

/-- Counting tool responses distributes over append. -/
theorem countToolResponses_append (l1 l2 : List ToolEvent) :
    countToolResponses (l1 ++ l2) = countToolResponses l1 + countToolResponses l2 := by
  induction l1 with
  | nil => simp [countToolResponses]
  | cons ev rest ih =>
      cases ev with
      | setThinking b => simp [countToolResponses, ih]
      | historyAdd t r ty => simp [countToolResponses, ih]
      | sendToolResponse i n r => simp [countToolResponses, ih, Nat.add_right_comm]

/-- The `try` body never touches the thinking flag upward. -/
theorem countSetThinkingTrue_invTryBlock (h : Bool) (e : FunctionCall → ExecOutcome)
    (fc : FunctionCall) : countSetThinkingTrue (invTryBlock h e fc).1 = 0 := by
  unfold invTryBlock
  split
  · rcases e fc with text | _ <;>
      simp [countSetThinkingTrue, countSetThinkingTrue_append, sendResponse,
        apply_ite countSetThinkingTrue]
  · split
    · rcases e fc with text | _ <;>
        simp [countSetThinkingTrue, countSetThinkingTrue_append, sendResponse,
          apply_ite countSetThinkingTrue]
    · simp [countSetThinkingTrue, sendResponse, apply_ite countSetThinkingTrue]

/-- The `try` body never touches the thinking flag downward either. -/
theorem countSetThinkingFalse_invTryBlock (h : Bool) (e : FunctionCall → ExecOutcome)
    (fc : FunctionCall) : countSetThinkingFalse (invTryBlock h e fc).1 = 0 := by
  unfold invTryBlock
  split
  · rcases e fc with text | _ <;>
      simp [countSetThinkingFalse, countSetThinkingFalse_append, sendResponse,
        apply_ite countSetThinkingFalse]
  · split
    · rcases e fc with text | _ <;>
        simp [countSetThinkingFalse, countSetThinkingFalse_append, sendResponse,
          apply_ite countSetThinkingFalse]
    · simp [countSetThinkingFalse, sendResponse, apply_ite countSetThinkingFalse]

/-- One loop iteration never raises the thinking flag. -/
theorem countSetThinkingTrue_runInvocation (h : Bool) (e : FunctionCall → ExecOutcome)
    (fc : FunctionCall) : countSetThinkingTrue (runInvocation h e fc) = 0 := by
  unfold runInvocation
  simp [countSetThinkingTrue_append, countSetThinkingTrue_invTryBlock,
    apply_ite countSetThinkingTrue, countSetThinkingTrue]

/-- One loop iteration lowers the thinking flag exactly once (the
`finally`). -/
theorem countSetThinkingFalse_runInvocation (h : Bool) (e : FunctionCall → ExecOutcome)
    (fc : FunctionCall) : countSetThinkingFalse (runInvocation h e fc) = 1 := by
  unfold runInvocation
  simp [countSetThinkingFalse_append, countSetThinkingFalse_invTryBlock,
    apply_ite countSetThinkingFalse, countSetThinkingFalse]

/-- After one loop iteration the thinking flag is down, whatever it
was before: the iteration ends with the `finally`. -/
theorem thinkingAfter_runInvocation (h : Bool) (e : FunctionCall → ExecOutcome)
    (fc : FunctionCall) (init : Bool) : thinkingAfter init (runInvocation h e fc) = false := by
  unfold runInvocation
  simp [thinkingAfter_append, thinkingAfter]

/-- After a nonempty batch the thinking flag is down. -/
theorem thinkingAfter_runAll (h : Bool) (e : FunctionCall → ExecOutcome)
    (fc : FunctionCall) (rest : List FunctionCall) (init : Bool) :
    thinkingAfter init (runAll h e (fc :: rest)) = false := by
  induction rest generalizing fc init with
  | nil => simp [runAll, thinkingAfter_append, thinkingAfter_runInvocation, thinkingAfter]
  | cons b bs ih =>
      rw [runAll, thinkingAfter_append, thinkingAfter_runInvocation]
      exact ih b false

/-- A batch never raises the thinking flag on its own. -/
theorem countSetThinkingTrue_runAll (h : Bool) (e : FunctionCall → ExecOutcome)
    (fcs : List FunctionCall) : countSetThinkingTrue (runAll h e fcs) = 0 := by
  induction fcs with
  | nil => rfl
  | cons fc rest ih =>
      rw [runAll, countSetThinkingTrue_append, countSetThinkingTrue_runInvocation, ih]

/-- A batch lowers the thinking flag once per invocation. -/
theorem countSetThinkingFalse_runAll (h : Bool) (e : FunctionCall → ExecOutcome)
    (fcs : List FunctionCall) : countSetThinkingFalse (runAll h e fcs) = fcs.length := by
  induction fcs with
  | nil => rfl
  | cons fc rest ih =>
      rw [runAll, countSetThinkingFalse_append, countSetThinkingFalse_runInvocation, ih,
        List.length_cons, Nat.add_comm]

/-- The first scheduled start time never precedes the incoming cursor. -/
theorem schedTimes_head_ge (next : ℚ) (chunks : List (ℚ × ℚ)) :
    ∀ st ∈ (schedTimes next chunks).head?, next ≤ st.1 := by
  cases chunks with
  | nil => simp [schedTimes]
  | cons c rest =>
      obtain ⟨clock, dur⟩ := c
      simp [schedTimes, scheduleChunk]

/-- The cursor trace starts with the incoming cursor value. -/
theorem cursorTrace_head (next : ℚ) (chunks : List (ℚ × ℚ)) :
    (cursorTrace next chunks).head? = some next := by
  cases chunks with
  | nil => rfl
  | cons c rest => obtain ⟨clock, dur⟩ := c; rfl

/-- Consecutive scheduled chunks never overlap: each start time is at
least the previous start plus the previous duration. -/
theorem schedTimes_chain (next : ℚ) (chunks : List (ℚ × ℚ)) :
    List.Chain' (fun a b => a.1 + a.2 ≤ b.1) (schedTimes next chunks) := by
  induction chunks generalizing next with
  | nil => simp [schedTimes]
  | cons c rest ih =>
      obtain ⟨clock, dur⟩ := c
      rw [schedTimes, List.chain'_cons']
      refine ⟨fun y hy => ?_, ih _⟩
      have h := schedTimes_head_ge (scheduleChunk next clock dur).2 rest y hy
      simpa [scheduleChunk] using h

/-- With non-negative durations the playback cursor never moves
backwards. -/
theorem cursorTrace_mono (next : ℚ) (chunks : List (ℚ × ℚ))
    (hd : ∀ p ∈ chunks, 0 ≤ p.2) :
    List.Chain' (fun a b => a ≤ b) (cursorTrace next chunks) := by
  induction chunks generalizing next with
  | nil => simp [cursorTrace]
  | cons c rest ih =>
      obtain ⟨clock, dur⟩ := c
      rw [cursorTrace, List.chain'_cons']
      constructor
      · intro y hy
        rw [cursorTrace_head] at hy
        simp only [Option.mem_def, Option.some_inj] at hy
        subst hy
        have h0 : (0 : ℚ) ≤ dur := hd (clock, dur) (by simp)
        have h1 : next ≤ max next clock := le_max_left _ _
        simp only [scheduleChunk]
        linarith
      · exact ih _ (fun p hp => hd p (List.mem_cons_of_mem _ hp))

/-! ## Claim theorems -/

/-- C1 (code bug): the claim — exactly one tool response per invocation
even when execution fails — is the spec's and the code's own intent
(the failure result string `"Sorry, I couldn't do that."` is
initialised before the `try` precisely to be sent), but the response
send sits inside the `try` after the awaited call, so a rejected
generation sends nothing: the one-invocation batch below whose
execution rejects emits zero tool responses where the claim demands
one, while a successful execution and an unrecognized name each emit
exactly one. -/
theorem C1_failure_drops_response :
    countToolResponses (handleToolCall true (fun _ => ExecOutcome.fail) [fcContent]) = 0 ∧
    countToolResponses (handleToolCall true (fun _ => ExecOutcome.ok "hello") [fcContent]) = 1 ∧
    countToolResponses (handleToolCall true (fun _ => ExecOutcome.ok "y") [fcUnknown]) = 1 := by
  refine ⟨rfl, rfl, rfl⟩

/-- C2 (confirmed): scheduling a sequence of chunk arrivals in order
from any cursor value yields start times with
`start(B) ≥ start(A) + duration(A)` for consecutive chunks A, B, a
first start time at or after the playback clock at the first arrival,
and (for non-negative durations) a monotonically non-decreasing
playback cursor. -/
theorem C2_gapless_playback (next0 : ℚ) (chunks : List (ℚ × ℚ))
    (hd : ∀ p ∈ chunks, 0 ≤ p.2) :
    List.Chain' (fun a b => a.1 + a.2 ≤ b.1) (schedTimes next0 chunks) ∧
    (∀ c ∈ chunks.head?, ∀ st ∈ (schedTimes next0 chunks).head?, c.1 ≤ st.1) ∧
    List.Chain' (fun a b => a ≤ b) (cursorTrace next0 chunks) := by
  refine ⟨schedTimes_chain next0 chunks, ?_, cursorTrace_mono next0 chunks hd⟩
  cases chunks with
  | nil => simp
  | cons c rest =>
      obtain ⟨clock, dur⟩ := c
      simp [schedTimes, scheduleChunk]

/-- Witness for C2 at a concrete chunk sequence. -/
theorem C2_gapless_playback_witness :
    (∀ p ∈ [((0 : ℚ), (1 : ℚ)), ((2 : ℚ), (3 : ℚ))], 0 ≤ p.2) ∧
    (List.Chain' (fun a b => a.1 + a.2 ≤ b.1)
        (schedTimes 0 [((0 : ℚ), (1 : ℚ)), ((2 : ℚ), (3 : ℚ))]) ∧
      (∀ c ∈ [((0 : ℚ), (1 : ℚ)), ((2 : ℚ), (3 : ℚ))].head?,
        ∀ st ∈ (schedTimes 0 [((0 : ℚ), (1 : ℚ)), ((2 : ℚ), (3 : ℚ))]).head?, c.1 ≤ st.1) ∧
      List.Chain' (fun a b => a ≤ b)
        (cursorTrace 0 [((0 : ℚ), (1 : ℚ)), ((2 : ℚ), (3 : ℚ))])) :=
  ⟨by decide, C2_gapless_playback 0 [((0 : ℚ), (1 : ℚ)), ((2 : ℚ), (3 : ℚ))] (by decide)⟩

/-- C3 (corrected, counterexample): in a batch of two invocations the
thinking flag is already false while the second invocation is still
unfinished — the first iteration's `finally` lowers it and nothing
raises it again.  The trace of the two-invocation batch below lowers
the flag at its third event, before the second invocation's response
(its fourth event) exists. -/
theorem C3_thinking_counterexample :
    handleToolCall true (fun _ => ExecOutcome.ok "r") [fcToolA, fcToolB] =
      [ToolEvent.setThinking true,
       ToolEvent.sendToolResponse "1" "toolA" defaultToolResult,
       ToolEvent.setThinking false,
       ToolEvent.sendToolResponse "2" "toolB" defaultToolResult,
       ToolEvent.setThinking false] ∧
    thinkingAt (handleToolCall true (fun _ => ExecOutcome.ok "r") [fcToolA, fcToolB]) 3 =
      false := by
  refine ⟨rfl, rfl⟩

/-- C3 (amended): the thinking flag is raised once at the start of the
batch, before the first invocation, and lowered once by every
invocation's `finally`; hence it is true from the start of the first
invocation until the first invocation completes, and false after every
invocation — in particular after the last, for any nonempty batch. -/
theorem C3_thinking_per_invocation (hs : Bool) (exec : FunctionCall → ExecOutcome)
    (fcs : List FunctionCall) (h : fcs ≠ []) :
    (handleToolCall hs exec fcs).head? = some (ToolEvent.setThinking true) ∧
    thinkingAfter false (handleToolCall hs exec fcs) = false ∧
    countSetThinkingTrue (handleToolCall hs exec fcs) = 1 ∧
    countSetThinkingFalse (handleToolCall hs exec fcs) = fcs.length := by
  obtain ⟨fc, rest, rfl⟩ : ∃ fc rest, fcs = fc :: rest := by
    cases fcs with
    | nil => exact absurd rfl h
    | cons fc rest => exact ⟨fc, rest, rfl⟩
  refine ⟨rfl, ?_, ?_, ?_⟩
  · show thinkingAfter false (ToolEvent.setThinking true :: runAll hs exec (fc :: rest)) = false
    rw [thinkingAfter]
    exact thinkingAfter_runAll hs exec fc rest true
  · show countSetThinkingTrue (ToolEvent.setThinking true :: runAll hs exec (fc :: rest)) = 1
    rw [countSetThinkingTrue, countSetThinkingTrue_runAll]
  · show countSetThinkingFalse (ToolEvent.setThinking true :: runAll hs exec (fc :: rest)) =
      (fc :: rest).length
    simp [countSetThinkingFalse, countSetThinkingFalse_runAll]

/-- Witness for the amended C3 on a one-invocation batch. -/
theorem C3_thinking_per_invocation_witness :
    ([fcToolA] ≠ ([] : List FunctionCall)) ∧
    ((handleToolCall true (fun _ => ExecOutcome.ok "r") [fcToolA]).head? =
        some (ToolEvent.setThinking true) ∧
      thinkingAfter false (handleToolCall true (fun _ => ExecOutcome.ok "r") [fcToolA]) = false ∧
      countSetThinkingTrue (handleToolCall true (fun _ => ExecOutcome.ok "r") [fcToolA]) = 1 ∧
      countSetThinkingFalse (handleToolCall true (fun _ => ExecOutcome.ok "r") [fcToolA]) =
        [fcToolA].length) :=
  ⟨by simp, C3_thinking_per_invocation true (fun _ => ExecOutcome.ok "r") [fcToolA] (by simp)⟩

/-- C4 (confirmed): `startSession` is a state-checked no-op while the
session is CONNECTING or CONNECTED — the state is returned unchanged
and no connection attempt proceeds; from any other state it clears the
held error, enters CONNECTING, resets the closed flag and proceeds with
exactly one new attempt. -/
theorem C4_idempotent_start (s t : HookState)
    (hs : s.sessionState = SessionState.connecting ∨ s.sessionState = SessionState.connected)
    (ht : ¬(t.sessionState = SessionState.connecting ∨
        t.sessionState = SessionState.connected)) :
    startSession s = (s, false) ∧
    (startSession t).2 = true ∧
    (startSession t).1.error = none ∧
    (startSession t).1.sessionState = SessionState.connecting ∧
    (startSession t).1.isClosed = false := by
  unfold startSession
  rw [if_pos hs, if_neg ht]
  exact ⟨rfl, rfl, rfl, rfl, rfl⟩

/-- Witness for C4: a connected state is left untouched; an idle state
holding an error proceeds with the error cleared. -/
theorem C4_idempotent_start_witness :
    startSession connectedState = (connectedState, false) ∧
    (startSession sampleState).2 = true ∧
    (startSession sampleState).1.error = none ∧
    (startSession sampleState).1.sessionState = SessionState.connecting ∧
    (startSession sampleState).1.isClosed = false :=
  C4_idempotent_start connectedState sampleState (Or.inr rfl) (by decide)

/-- C5 (corrected, counterexample): the claimed precedence puts the
missing-device bucket before the network bucket, but the code tests
the network signatures first — a fault whose message carries both
signatures ("no network device found") is classified as a
server-connection error by the code, while the claimed precedence
would classify it as no-microphone-found. -/
theorem C5_precedence_counterexample :
    mapErrorToAppError faultNetDev ≠ specMapErrorToAppError faultNetDev ∧
    (mapErrorToAppError faultNetDev).title = netAppError.title ∧
    (specMapErrorToAppError faultNetDev).title = devAppError.title := by
  refine ⟨by decide, rfl, rfl⟩

/-- C5 (amended): the classifier maps every `Error` fault to exactly
one of the four buckets with precedence permission-denial first, then
network/auth/protocol-rejection, then missing-input-device, then
unknown; a permission-denial fault yields the microphone-access error,
whose remediation steps are non-empty, and a fault matching no
signature yields the generic title with the fault's own message and no
steps. -/
theorem C5_classifier (f : Fault) (hE : f.isError = true) :
    (isPermFault f = true → mapErrorToAppError f = permAppError) ∧
    (isPermFault f = false → isNetFault f = true → mapErrorToAppError f = netAppError) ∧
    (isPermFault f = false → isNetFault f = false → isDevFault f = true →
      mapErrorToAppError f = devAppError) ∧
    (isPermFault f = false → isNetFault f = false → isDevFault f = false →
      mapErrorToAppError f = { title := unknownTitle, message := f.message, steps := [] }) ∧
    permAppError.steps ≠ [] := by
  refine ⟨?_, ?_, ?_, ?_, by decide⟩ <;> intros <;> simp_all [mapErrorToAppError]

/-- Witness for the amended C5 at a permission-denial fault. -/
theorem C5_classifier_witness :
    faultPerm.isError = true ∧ mapErrorToAppError faultPerm = permAppError :=
  ⟨rfl, (C5_classifier faultPerm rfl).1 (by decide)⟩

/-- C6 (confirmed): a channel-open callback firing once the channel is
recorded closed, or once the input audio context and microphone stream
are torn down — in particular right after `cleanup` has run — leaves
the state untouched and wires nothing; the guards return before any
resource is touched, so nothing can throw. -/
theorem C6_stale_open (s : HookState)
    (h : s.isClosed = true ∨ (s.inputAudioContext = none ∧ s.stream = none)) :
    onopen s = (s, false) ∧ onopen (cleanup s).1 = ((cleanup s).1, false) := by
  constructor
  · rcases h with h | ⟨h1, h2⟩
    · simp [onopen, h]
    · cases hc : s.isClosed <;> simp [onopen, hc, h1, h2]
  · cases hc : s.isClosed <;> simp [onopen, cleanup_fst, hc]

/-- Witness for C6 at a fully-populated state whose channel has been
recorded closed. -/
theorem C6_stale_open_witness :
    onopen closedState = (closedState, false) ∧
    onopen (cleanup closedState).1 = ((cleanup closedState).1, false) :=
  C6_stale_open closedState (Or.inl rfl)

/-- C7 (confirmed): `cleanup` is idempotent — a second call performs no
effects at all (so nothing can raise) and leaves the state unchanged —
and after one call the live-source set is empty, both context
references are dropped (each context still open got a close request),
the microphone stream is dropped with every track stopped, the
speaking-check timer is cancelled and the playback cursor is 0.  The
function is total: every fallible browser call in the source is either
guarded or has its rejection swallowed by `.catch`. -/
theorem C7_cleanup_idempotent (s : HookState) :
    cleanup (cleanup s).1 = ((cleanup s).1, []) ∧
    (cleanup s).1.audioSources = [] ∧
    (cleanup s).1.inputAudioContext = none ∧
    (cleanup s).1.outputAudioContext = none ∧
    (cleanup s).1.stream = none ∧
    (cleanup s).1.scriptProcessor = none ∧
    (cleanup s).1.outputGainNode = none ∧
    (cleanup s).1.speakingCheckInterval = none ∧
    (cleanup s).1.sessionPromise = none ∧
    (cleanup s).1.isSpeaking = false ∧
    (cleanup s).1.nextStartTime = 0 ∧
    (∀ c ∈ s.inputAudioContext, c.ctxState = CtxState.closed ∨
      CleanupEffect.closedInputCtx ∈ (cleanup s).2) ∧
    (∀ c ∈ s.outputAudioContext, c.ctxState = CtxState.closed ∨
      CleanupEffect.closedOutputCtx ∈ (cleanup s).2) ∧
    (∀ t ∈ s.stream.getD [], CleanupEffect.stoppedTrack t ∈ (cleanup s).2) ∧
    (∀ a ∈ s.audioSources, CleanupEffect.stoppedSource a ∈ (cleanup s).2) ∧
    (∀ n ∈ s.speakingCheckInterval, CleanupEffect.clearedInterval n ∈ (cleanup s).2) := by
  refine ⟨rfl, rfl, rfl, rfl, rfl, rfl, rfl, rfl, rfl, rfl, rfl, ?_, ?_, ?_, ?_, ?_⟩
  · intro c hc
    rw [Option.mem_def] at hc
    by_cases hcl : c.ctxState = CtxState.closed
    · exact Or.inl hcl
    · refine Or.inr ?_
      simp [cleanup, hc, hcl, List.mem_append]
  · intro c hc
    rw [Option.mem_def] at hc
    by_cases hcl : c.ctxState = CtxState.closed
    · exact Or.inl hcl
    · refine Or.inr ?_
      simp [cleanup, hc, hcl, List.mem_append]
  · intro t ht
    cases hs : s.stream with
    | none => rw [hs] at ht; simp at ht
    | some ts =>
        rw [hs] at ht
        simp only [Option.getD_some] at ht
        simp [cleanup, hs, List.mem_append, List.mem_map, ht]
  · intro a ha
    simp [cleanup, List.mem_append, List.mem_map, ha]
  · intro n hn
    rw [Option.mem_def] at hn
    simp [cleanup, hn, List.mem_append]

/-- C9 (confirmed): the channel close callback preserves the held
error in every state; it moves the session to IDLE unless the state is
ERROR, in which case ERROR is kept; and it runs `cleanup` in both
cases, leaving no live sources, no context references and a reset
cursor. -/
theorem C9_onclose_preserves_error (s : HookState) :
    (onclose s).error = s.error ∧
    (onclose s).sessionState =
      (if s.sessionState = SessionState.error then SessionState.error
       else SessionState.idle) ∧
    (onclose s).isClosed = true ∧
    (onclose s).audioSources = [] ∧
    (onclose s).inputAudioContext = none ∧
    (onclose s).outputAudioContext = none ∧
    (onclose s).stream = none ∧
    (onclose s).nextStartTime = 0 := by
  unfold onclose
  by_cases h : s.sessionState = SessionState.error <;>
    simp [h, cleanup_fst]

/-- C8 (confirmed): the capture pipe emits exactly the frames whose
callback found the session handle present, in capture order; a frame
arriving while the channel is not ready is absent from the entire
output — never buffered, never delivered later, never retried — and no
callback emits more than one send. -/
theorem C8_drop_when_not_ready (frames : List (Nat × Bool)) :
    capturePipe frames = (frames.filter (fun p => p.2)).map Prod.fst ∧
    (capturePipe frames).length ≤ frames.length := by
  induction frames with
  | nil => exact ⟨rfl, Nat.le_refl 0⟩
  | cons p rest ih =>
      obtain ⟨f, ready⟩ := p
      have hlen := ih.2
      constructor
      · cases ready <;> simp [capturePipe, onAudioProcess, ih.1]
      · cases ready <;> simp [capturePipe, onAudioProcess] <;> omega

/-- C10 (confirmed): a history entry's id is the rendered role, a
hyphen and the millisecond timestamp, so two entries appended with the
same role within the same millisecond receive the very same id — ids
are not unique. -/
theorem C10_duplicate_ids (prev : List Message) (t1 t2 : String) (r : Role)
    (ty1 ty2 : ContentType) (now : Nat) :
    (addMessageToHistory now prev t1 r ty1).head?.map Message.id =
      some (mkMessageId r now) ∧
    (addMessageToHistory now (addMessageToHistory now prev t1 r ty1) t2 r ty2).head?.map
        Message.id =
      (addMessageToHistory now (addMessageToHistory now prev t1 r ty1) t2 r ty2).tail.head?.map
        Message.id := by
  exact ⟨rfl, rfl⟩

end RoboShen
